import Mathlib

/-!
Verification of the bombing-solution engine of the Release-Bomb repository.

The definitions below are a shallow embedding, over the real numbers, of
`bomb_release_calculator.py` (geodesy, wind estimation, ballistic model,
release-point solver) and of the timeout-budget logic of
`get_complete_flight_data` in `mavlink_integration.py`.  Python floats are
modelled as reals; the `Optional` return of the ballistic model becomes
`Option`; the result dictionary of `calculate_release_point` becomes the
`CalcResult` structure (the human-readable `message` string is not
modelled).  Each definition mirrors the control flow of the source
function of the same name.
-/

namespace BombRelease

open Real

noncomputable section

/-- Error codes of the calculator: the `ErrorCode` enum of the source. -/
inductive ErrorCode where
  | SUCCESS
  | INVALID_COORDINATES
  | INVALID_SPEED
  | TARGET_TOO_FAR
  | CALCULATION_ERROR
  | NUMERICAL_INSTABILITY
deriving DecidableEq

/-- Geographic position: the `Position` dataclass (latitude and longitude
in degrees, altitude in meters). -/
structure Position where
  latitude : ℝ
  longitude : ℝ
  altitude : ℝ

/-- The range constraints enforced by `Position.__post_init__`. -/
def Position.valid (p : Position) : Prop :=
  -90 ≤ p.latitude ∧ p.latitude ≤ 90 ∧
    -180 ≤ p.longitude ∧ p.longitude ≤ 180 ∧ 0 ≤ p.altitude

/-- Speed sample: the `SpeedData` dataclass. -/
structure SpeedData where
  airspeed : ℝ
  groundspeed : ℝ

/-- The positivity constraints enforced by `SpeedData.__post_init__`. -/
def SpeedData.valid (s : SpeedData) : Prop :=
  0 < s.airspeed ∧ 0 < s.groundspeed

/-- Earth radius in meters (`BombReleaseCalculator.EARTH_RADIUS`). -/
def EARTH_RADIUS : ℝ := 6371000

/-- Gravitational acceleration (`BombReleaseCalculator.GRAVITY`). -/
def GRAVITY : ℝ := 9.81

/-- Maximum reasonable target distance in meters
(`BombReleaseCalculator.MAX_REASONABLE_DISTANCE`). -/
def MAX_REASONABLE_DISTANCE : ℝ := 50000

/-- Minimum release height in meters
(`BombReleaseCalculator.MIN_RELEASE_HEIGHT`). -/
def MIN_RELEASE_HEIGHT : ℝ := 50

/-- Degree-to-radian conversion (`math.radians`). -/
def radians (x : ℝ) : ℝ := x * π / 180

/-- Radian-to-degree conversion (`math.degrees`). -/
def degrees (x : ℝ) : ℝ := x * 180 / π

/-- Two-argument arctangent (`math.atan2`), with the IEEE sign
conventions restricted to finite non-signed-zero inputs. -/
def arctan2 (y x : ℝ) : ℝ :=
  if 0 < x then arctan (y / x)
  else if x < 0 ∧ 0 ≤ y then arctan (y / x) + π
  else if x < 0 then arctan (y / x) - π
  else if 0 < y then π / 2
  else if y < 0 then -(π / 2)
  else 0

/-- The raw haversine term `a` computed at lines 132-133 of
`calculate_distance_and_bearing`. -/
def haversineTerm (pos1 pos2 : Position) : ℝ :=
  let lat1_rad := radians pos1.latitude
  let lat2_rad := radians pos2.latitude
  let dlat := lat2_rad - lat1_rad
  let dlon := radians pos2.longitude - radians pos1.longitude
  sin (dlat / 2) ^ 2 + cos lat1_rad * cos lat2_rad * sin (dlon / 2) ^ 2

/-- The haversine term after the numerical-stability clamp of lines
136-139 (`if a > 1.0: a = 1.0 elif a < 0.0: a = 0.0`). -/
def clampedHaversineTerm (pos1 pos2 : Position) : ℝ :=
  let a := haversineTerm pos1 pos2
  if a > 1 then 1 else if a < 0 then 0 else a

/-- Distance and initial bearing between two positions
(`BombReleaseCalculator.calculate_distance_and_bearing`). -/
def calculate_distance_and_bearing (pos1 pos2 : Position) : ℝ × ℝ :=
  let a := clampedHaversineTerm pos1 pos2
  let c := 2 * arcsin (Real.sqrt a)
  let distance := EARTH_RADIUS * c
  let lat1_rad := radians pos1.latitude
  let lat2_rad := radians pos2.latitude
  let dlon := radians pos2.longitude - radians pos1.longitude
  let y := sin dlon * cos lat2_rad
  let x := cos lat1_rad * sin lat2_rad - sin lat1_rad * cos lat2_rad * cos dlon
  (distance, arctan2 y x)

/-- Wind estimation (`BombReleaseCalculator.calculate_wind_effect`).
The first binding reproduces the dead vector-decomposition formula of
line 171, immediately shadowed by the simplified magnitude of line 175
exactly as in the source. -/
def calculate_wind_effect (airspeed groundspeed bearing : ℝ) : ℝ × ℝ :=
  let wind_speed := Real.sqrt (airspeed ^ 2 + groundspeed ^ 2 -
    2 * airspeed * groundspeed * cos 0)
  let wind_speed := |airspeed - groundspeed|
  let wind_angle := if airspeed > groundspeed then π else 0
  (wind_speed, wind_angle)

/-- Free-fall vertical drop time, the `vertical_time` of line 218. -/
def vertical_time (height : ℝ) : ℝ := Real.sqrt (2 * height / GRAVITY)

/-- The effective horizontal velocity of line 221:
`initial_velocity + wind_speed`, with no sign applied to the wind. -/
def effective_horizontal_velocity (initial_velocity wind_speed : ℝ) : ℝ :=
  initial_velocity + wind_speed

/-- The flight time of lines 228-237, before the drag multiplier and the
final sanity gate are applied. -/
def preDragFlightTime (veff height distance : ℝ) : ℝ :=
  let vt := vertical_time height
  let horizontal_time := distance / |veff|
  if horizontal_time > vt * 1.2 then vt
  else max horizontal_time (vt * 0.8)

/-- Ballistic time of flight
(`BombReleaseCalculator.calculate_ballistic_trajectory`). -/
def calculate_ballistic_trajectory (initial_velocity height distance wind_speed : ℝ) :
    Option ℝ :=
  if height ≤ 0 then none
  else if distance ≤ 0 then none
  else
    let veff := effective_horizontal_velocity initial_velocity wind_speed
    if |veff| < 1e-10 then none
    else
      let flight_time := preDragFlightTime veff height distance
      if flight_time ≤ 0 ∨ flight_time > 60 then none
      else some (flight_time * 1.1)

/-- The diagnostic bag stored under the `calculations` key of a
successful result (lines 344-351). -/
structure Calculations where
  target_distance : ℝ
  target_bearing : ℝ
  wind_angle : ℝ
  aircraft_altitude : ℝ
  target_altitude : ℝ
  altitude_difference : ℝ

/-- The result dictionary of `calculate_release_point`; `none` in the
`calculations` field models the empty diagnostic dictionary. -/
structure CalcResult where
  success : Bool
  error_code : ErrorCode
  release_time : Option ℝ
  release_distance : Option ℝ
  flight_time : Option ℝ
  wind_speed : Option ℝ
  calculations : Option Calculations

/-- A failure result: the initial dictionary of lines 266-275 with only
`error_code` (and the unmodelled message) updated. -/
def failureResult (code : ErrorCode) : CalcResult :=
  { success := false
    error_code := code
    release_time := none
    release_distance := none
    flight_time := none
    wind_speed := none
    calculations := none }

/-- The release-point solver
(`BombReleaseCalculator.calculate_release_point`). -/
def calculate_release_point (aircraft_pos target_pos : Position)
    (speed_data : SpeedData) : CalcResult :=
  if aircraft_pos.altitude < MIN_RELEASE_HEIGHT then
    failureResult ErrorCode.INVALID_COORDINATES
  else
    let db := calculate_distance_and_bearing aircraft_pos target_pos
    let distance := db.1
    let bearing := db.2
    if distance > MAX_REASONABLE_DISTANCE then
      failureResult ErrorCode.TARGET_TOO_FAR
    else
      let we := calculate_wind_effect speed_data.airspeed speed_data.groundspeed bearing
      let wind_speed := we.1
      let wind_angle := we.2
      match calculate_ballistic_trajectory speed_data.groundspeed
          (aircraft_pos.altitude - target_pos.altitude) distance wind_speed with
      | none => failureResult ErrorCode.CALCULATION_ERROR
      | some flight_time =>
        let release_distance := speed_data.groundspeed * flight_time
        if release_distance > distance * 2 then
          failureResult ErrorCode.NUMERICAL_INSTABILITY
        else
          let release_time := (distance - release_distance) / speed_data.groundspeed
          if release_time < 0 then
            failureResult ErrorCode.CALCULATION_ERROR
          else
            { success := true
              error_code := ErrorCode.SUCCESS
              release_time := some release_time
              release_distance := some release_distance
              flight_time := some flight_time
              wind_speed := some wind_speed
              calculations := some
                { target_distance := distance
                  target_bearing := degrees bearing
                  wind_angle := degrees wind_angle
                  aircraft_altitude := aircraft_pos.altitude
                  target_altitude := target_pos.altitude
                  altitude_difference := aircraft_pos.altitude - target_pos.altitude } }

/-- The flight-data record assembled by `get_complete_flight_data`
(core fields of the `FlightData` dataclass of `mavlink_integration.py`). -/
structure FlightData where
  position : Position
  speed : SpeedData
  timestamp : ℝ

/-- The timeout-budget logic of
`FlightDataCollector.get_complete_flight_data`.  The two sub-pulls
`get_position_data` and `get_speed_data` are abstracted as oracles
mapping a timeout budget to an optional reading, and the wall-clock time
elapsed when the remaining budget is measured (line 270) is the explicit
parameter `elapsed`; `final_time` is the capture timestamp taken at line
285. -/
def get_complete_flight_data (timeout : ℝ)
    (get_position_data : ℝ → Option Position)
    (get_speed_data : ℝ → Option SpeedData)
    (elapsed final_time : ℝ) : Option FlightData :=
  let half_timeout := timeout / 2
  match get_position_data half_timeout with
  | none => none
  | some position =>
    let remaining_timeout := timeout - elapsed
    if remaining_timeout ≤ 0 then none
    else
      match get_speed_data remaining_timeout with
      | none => none
      | some speed => some ⟨position, speed, final_time⟩

/-! Helper lemmas shared by the claim theorems. -/

/-- The haversine term vanishes when the two positions share latitude and
longitude. -/
lemma haversineTerm_eq_zero_of_same_latlon (p q : Position)
    (hlat : p.latitude = q.latitude) (hlon : p.longitude = q.longitude) :
    haversineTerm p q = 0 := by
  unfold haversineTerm radians
  rw [hlat, hlon]
  simp

/-- The clamped haversine term vanishes when the two positions share
latitude and longitude. -/
lemma clampedHaversineTerm_eq_zero_of_same_latlon (p q : Position)
    (hlat : p.latitude = q.latitude) (hlon : p.longitude = q.longitude) :
    clampedHaversineTerm p q = 0 := by
  unfold clampedHaversineTerm
  rw [haversineTerm_eq_zero_of_same_latlon p q hlat hlon]
  norm_num

/-- The haversine distance vanishes when the two positions share latitude
and longitude. -/
lemma distance_eq_zero_of_same_latlon (p q : Position)
    (hlat : p.latitude = q.latitude) (hlon : p.longitude = q.longitude) :
    (calculate_distance_and_bearing p q).1 = 0 := by
  unfold calculate_distance_and_bearing
  rw [clampedHaversineTerm_eq_zero_of_same_latlon p q hlat hlon]
  simp

/-- Claim C8: for positive airspeed and groundspeed the wind estimator
returns the magnitude of the airspeed/groundspeed gap, relative angle π
exactly when airspeed exceeds groundspeed and 0 otherwise, ignores the
bearing argument, and never fails. -/
theorem wind_effect_policy (airspeed groundspeed bearing : ℝ)
    (ha : 0 < airspeed) (hg : 0 < groundspeed) :
    calculate_wind_effect airspeed groundspeed bearing =
      (|airspeed - groundspeed|, if airspeed > groundspeed then π else 0) ∧
    ∀ b, calculate_wind_effect airspeed groundspeed b =
      calculate_wind_effect airspeed groundspeed bearing := by
  exact ⟨rfl, fun b => rfl⟩

/-- Witness for C8 at airspeed 50, groundspeed 45, bearing 0. -/
theorem wind_effect_policy_witness :
    0 < (50 : ℝ) ∧ 0 < (45 : ℝ) ∧
      calculate_wind_effect 50 45 0 = (5, π) := by
  have h := (wind_effect_policy 50 45 0 (by norm_num) (by norm_num)).1
  refine ⟨by norm_num, by norm_num, ?_⟩
  rw [h]
  norm_num

/-- Claim C1 (amended): for height > 0, distance > 0 and effective
horizontal velocity of magnitude at least 1e-10, any time of flight the
ballistic model returns lies in (0, 66]: the sanity gate bounds the
pre-drag time by (0, 60] and the +10% drag multiplier is applied after
the gate, so the returned value can reach 66 seconds. -/
theorem ballistic_time_bounds (v h d w t : ℝ) (hh : 0 < h) (hd : 0 < d)
    (hv : 1e-10 ≤ |effective_horizontal_velocity v w|)
    (ht : calculate_ballistic_trajectory v h d w = some t) :
    0 < t ∧ t ≤ 66 := by
  simp only [calculate_ballistic_trajectory] at ht
  split_ifs at ht with h1 h2 h3 h4
  push_neg at h4
  obtain ⟨hpos, hle⟩ := h4
  rw [Option.some_inj] at ht
  subst ht
  constructor
  · nlinarith
  · nlinarith

/-- Witness for the amended C1 at velocity 1, height 4.905 m,
distance 1 m, no wind: the model returns 1.1 s, inside (0, 66]. -/
theorem ballistic_time_bounds_witness :
    0 < (4.905 : ℝ) ∧ 0 < (1 : ℝ) ∧
      (1e-10 : ℝ) ≤ |effective_horizontal_velocity 1 0| ∧
      calculate_ballistic_trajectory 1 4.905 1 0 = some 1.1 ∧
      0 < (1.1 : ℝ) ∧ (1.1 : ℝ) ≤ 66 := by
  have hs : Real.sqrt (2 * 4.905 / GRAVITY) = 1 := by
    rw [show (2 * 4.905 / GRAVITY : ℝ) = 1 by norm_num [GRAVITY]]
    exact Real.sqrt_one
  have hpre : preDragFlightTime (effective_horizontal_velocity 1 0) 4.905 1 = 1 := by
    simp only [preDragFlightTime, vertical_time, effective_horizontal_velocity, hs]
    norm_num
  have heval : calculate_ballistic_trajectory 1 4.905 1 0 = some 1.1 := by
    simp only [calculate_ballistic_trajectory, hpre]
    norm_num [effective_horizontal_velocity]
  have hb := ballistic_time_bounds 1 4.905 1 0 1.1 (by norm_num) (by norm_num)
    (by norm_num [effective_horizontal_velocity]) heval
  exact ⟨by norm_num, by norm_num, by norm_num [effective_horizontal_velocity],
    heval, hb.1, hb.2⟩

/-- Counterexample to C1 as stated: at velocity 1, height 16500.42 m,
distance 100 m, no wind, all of the claim's hypotheses hold, yet the
returned time of flight is 63.8 s, outside (0, 60]: the gate is applied
before the drag multiplier, not after. -/
theorem ballistic_time_bounds_cex :
    0 < (16500.42 : ℝ) ∧ 0 < (100 : ℝ) ∧
      (1e-10 : ℝ) ≤ |effective_horizontal_velocity 1 0| ∧
      calculate_ballistic_trajectory 1 16500.42 100 0 = some 63.8 ∧
      ¬ ((63.8 : ℝ) ≤ 60) := by
  have hs : Real.sqrt (2 * 16500.42 / GRAVITY) = 58 := by
    rw [show (2 * 16500.42 / GRAVITY : ℝ) = 58 ^ 2 by norm_num [GRAVITY]]
    exact Real.sqrt_sq (by norm_num)
  have hpre : preDragFlightTime (effective_horizontal_velocity 1 0) 16500.42 100 = 58 := by
    simp only [preDragFlightTime, vertical_time, effective_horizontal_velocity, hs]
    norm_num
  have heval : calculate_ballistic_trajectory 1 16500.42 100 0 = some 63.8 := by
    simp only [calculate_ballistic_trajectory, hpre]
    norm_num [effective_horizontal_velocity]
  exact ⟨by norm_num, by norm_num, by norm_num [effective_horizontal_velocity],
    heval, by norm_num⟩

/-- Claim C4: for height > 0, distance > 0 and effective horizontal
velocity of magnitude at least 1e-10, the pre-drag flight time equals
fall time when the cruise time exceeds 1.2 times the fall time, and
max(cruise time, 0.8 times fall time) otherwise; every returned time is
1.1 times this pre-drag time. -/
theorem preDrag_flight_time_formula (v w h d : ℝ) (hh : 0 < h) (hd : 0 < d)
    (hv : 1e-10 ≤ |effective_horizontal_velocity v w|) :
    (preDragFlightTime (effective_horizontal_velocity v w) h d =
      if d / |effective_horizontal_velocity v w| > 1.2 * Real.sqrt (2 * h / 9.81)
      then Real.sqrt (2 * h / 9.81)
      else max (d / |effective_horizontal_velocity v w|)
        (0.8 * Real.sqrt (2 * h / 9.81))) ∧
    ∀ t, calculate_ballistic_trajectory v h d w = some t →
      t = 1.1 * preDragFlightTime (effective_horizontal_velocity v w) h d := by
  constructor
  · simp only [preDragFlightTime, vertical_time, GRAVITY]
    rw [mul_comm (1.2 : ℝ), mul_comm (0.8 : ℝ)]
  · intro t ht
    simp only [calculate_ballistic_trajectory] at ht
    split_ifs at ht with h1 h2 h3 h4
    rw [Option.some_inj] at ht
    rw [← ht, mul_comm]

/-- Witness for C4 at velocity 1, height 4.905 m, distance 1 m, no wind:
the pre-drag flight time is the cruise time 1 s. -/
theorem preDrag_flight_time_formula_witness :
    0 < (4.905 : ℝ) ∧ 0 < (1 : ℝ) ∧
      (1e-10 : ℝ) ≤ |effective_horizontal_velocity 1 0| ∧
      preDragFlightTime (effective_horizontal_velocity 1 0) 4.905 1 = 1 := by
  have hs : Real.sqrt (2 * 4.905 / 9.81) = 1 := by
    rw [show (2 * 4.905 / 9.81 : ℝ) = 1 by norm_num]
    exact Real.sqrt_one
  have h := (preDrag_flight_time_formula 1 0 4.905 1 (by norm_num) (by norm_num)
    (by norm_num [effective_horizontal_velocity])).1
  refine ⟨by norm_num, by norm_num, by norm_num [effective_horizontal_velocity], ?_⟩
  rw [h, hs]
  norm_num [effective_horizontal_velocity]

/-- Claim C3 (amended): the wind contribution enters the ballistic model
as an unsigned magnitude added to the groundspeed, for headwind and
tailwind alike; the headwind/tailwind angle returned by the wind
estimator is never used to sign the contribution. -/
theorem effective_velocity_unsigned (v h d airspeed groundspeed b : ℝ) :
    calculate_ballistic_trajectory v h d
        (calculate_wind_effect airspeed groundspeed b).1 =
      calculate_ballistic_trajectory (v + |airspeed - groundspeed|) h d 0 ∧
    effective_horizontal_velocity v (calculate_wind_effect airspeed groundspeed b).1 =
      v + |airspeed - groundspeed| := by
  constructor
  · simp [calculate_ballistic_trajectory, calculate_wind_effect,
      effective_horizontal_velocity]
  · simp [calculate_wind_effect, effective_horizontal_velocity]

/-- Counterexample to C3 as stated: with airspeed 50 and groundspeed 40
the estimate is a headwind of 10 m/s (relative angle π), yet the
effective horizontal velocity used by the ballistic model is
40 + 10 = 50, not the claimed reduced value 40 - 10 = 30: a headwind
increases the effective velocity rather than reducing it. -/
theorem effective_velocity_signed_cex :
    calculate_wind_effect 50 40 0 = (10, π) ∧
      effective_horizontal_velocity 40 10 = 40 + 10 ∧
      (40 : ℝ) + 10 ≠ 40 - 10 ∧ (40 : ℝ) < 40 + 10 := by
  refine ⟨?_, rfl, by norm_num, by norm_num⟩
  simp only [calculate_wind_effect]
  norm_num

/-- Claim C2: a result of the release-point solver marked successful has
a nonnegative release countdown and a release standoff distance of at
most twice the computed target distance; inputs violating either bound
produce a failure instead. -/
theorem release_point_success_invariant (a t : Position) (s : SpeedData) :
    (calculate_release_point a t s).success = false ∨
      ∃ rt rd, (calculate_release_point a t s).release_time = some rt ∧
        (calculate_release_point a t s).release_distance = some rd ∧
        0 ≤ rt ∧ rd ≤ 2 * (calculate_distance_and_bearing a t).1 := by
  by_cases h1 : a.altitude < MIN_RELEASE_HEIGHT
  · left
    simp [calculate_release_point, h1, failureResult]
  by_cases h2 : (calculate_distance_and_bearing a t).1 > MAX_REASONABLE_DISTANCE
  · left
    simp [calculate_release_point, h1, h2, failureResult]
  rcases htraj : calculate_ballistic_trajectory s.groundspeed (a.altitude - t.altitude)
      (calculate_distance_and_bearing a t).1
      (calculate_wind_effect s.airspeed s.groundspeed
        (calculate_distance_and_bearing a t).2).1 with _ | ft
  · left
    simp [calculate_release_point, h1, h2, htraj, failureResult]
  by_cases h3 : s.groundspeed * ft > (calculate_distance_and_bearing a t).1 * 2
  · left
    simp [calculate_release_point, h1, h2, htraj, h3, failureResult]
  by_cases h4 : ((calculate_distance_and_bearing a t).1 - s.groundspeed * ft) /
      s.groundspeed < 0
  · left
    simp [calculate_release_point, h1, h2, htraj, h3, h4, failureResult]
  · right
    refine ⟨((calculate_distance_and_bearing a t).1 - s.groundspeed * ft) / s.groundspeed,
      s.groundspeed * ft, ?_, ?_, le_of_not_lt h4, ?_⟩
    · simp [calculate_release_point, h1, h2, htraj, h3, h4]
    · simp [calculate_release_point, h1, h2, htraj, h3, h4]
    · push_neg at h3
      linarith

/-- Claim C5: the release-point solver reports the below-minimum-altitude
failure exactly when the platform altitude is strictly below 50 m (the
code labels it with `ErrorCode.INVALID_COORDINATES`); exactly 50 m
passes, and the altitude gate fires before the target-range gate. -/
theorem altitude_gate_first (a t : Position) (s : SpeedData) :
    ((calculate_release_point a t s).error_code = ErrorCode.INVALID_COORDINATES ↔
      a.altitude < MIN_RELEASE_HEIGHT) ∧
    (a.altitude < MIN_RELEASE_HEIGHT →
      calculate_release_point a t s = failureResult ErrorCode.INVALID_COORDINATES) := by
  by_cases h1 : a.altitude < MIN_RELEASE_HEIGHT
  · exact ⟨by simp [calculate_release_point, h1, failureResult],
      fun _ => by simp [calculate_release_point, h1]⟩
  · refine ⟨⟨fun hcode => ?_, fun hlt => absurd hlt h1⟩, fun hlt => absurd hlt h1⟩
    exfalso
    by_cases h2 : (calculate_distance_and_bearing a t).1 > MAX_REASONABLE_DISTANCE
    · simp [calculate_release_point, h1, h2, failureResult] at hcode
    rcases htraj : calculate_ballistic_trajectory s.groundspeed (a.altitude - t.altitude)
        (calculate_distance_and_bearing a t).1
        (calculate_wind_effect s.airspeed s.groundspeed
          (calculate_distance_and_bearing a t).2).1 with _ | ft
    · simp [calculate_release_point, h1, h2, htraj, failureResult] at hcode
    by_cases h3 : s.groundspeed * ft > (calculate_distance_and_bearing a t).1 * 2
    · simp [calculate_release_point, h1, h2, htraj, h3, failureResult] at hcode
    by_cases h4 : ((calculate_distance_and_bearing a t).1 - s.groundspeed * ft) /
        s.groundspeed < 0
    · simp [calculate_release_point, h1, h2, htraj, h3, h4, failureResult] at hcode
    · simp [calculate_release_point, h1, h2, htraj, h3, h4] at hcode

/-- Claim C10: the release-point solver is total, and a failed result
carries no partial solution data: release time, release distance, flight
time and wind speed stay unset and the diagnostic bag stays empty. -/
theorem failure_leaks_no_solution_data (a t : Position) (s : SpeedData)
    (hfail : (calculate_release_point a t s).success = false) :
    (calculate_release_point a t s).release_time = none ∧
      (calculate_release_point a t s).release_distance = none ∧
      (calculate_release_point a t s).flight_time = none ∧
      (calculate_release_point a t s).wind_speed = none ∧
      (calculate_release_point a t s).calculations = none := by
  by_cases h1 : a.altitude < MIN_RELEASE_HEIGHT
  · simp [calculate_release_point, h1, failureResult]
  by_cases h2 : (calculate_distance_and_bearing a t).1 > MAX_REASONABLE_DISTANCE
  · simp [calculate_release_point, h1, h2, failureResult]
  rcases htraj : calculate_ballistic_trajectory s.groundspeed (a.altitude - t.altitude)
      (calculate_distance_and_bearing a t).1
      (calculate_wind_effect s.airspeed s.groundspeed
        (calculate_distance_and_bearing a t).2).1 with _ | ft
  · simp [calculate_release_point, h1, h2, htraj, failureResult]
  by_cases h3 : s.groundspeed * ft > (calculate_distance_and_bearing a t).1 * 2
  · simp [calculate_release_point, h1, h2, htraj, h3, failureResult]
  by_cases h4 : ((calculate_distance_and_bearing a t).1 - s.groundspeed * ft) /
      s.groundspeed < 0
  · simp [calculate_release_point, h1, h2, htraj, h3, h4, failureResult]
  · exfalso
    simp [calculate_release_point, h1, h2, htraj, h3, h4] at hfail

/-- Witness for C10: an aircraft at zero altitude fails (below the
minimum release height) and its result carries no solution fields. -/
theorem failure_leaks_no_solution_data_witness :
    (calculate_release_point ⟨0, 0, 0⟩ ⟨0, 0, 0⟩ ⟨50, 45⟩).success = false ∧
      (calculate_release_point ⟨0, 0, 0⟩ ⟨0, 0, 0⟩ ⟨50, 45⟩).release_time = none ∧
      (calculate_release_point ⟨0, 0, 0⟩ ⟨0, 0, 0⟩ ⟨50, 45⟩).release_distance = none ∧
      (calculate_release_point ⟨0, 0, 0⟩ ⟨0, 0, 0⟩ ⟨50, 45⟩).flight_time = none ∧
      (calculate_release_point ⟨0, 0, 0⟩ ⟨0, 0, 0⟩ ⟨50, 45⟩).wind_speed = none ∧
      (calculate_release_point ⟨0, 0, 0⟩ ⟨0, 0, 0⟩ ⟨50, 45⟩).calculations = none := by
  have hs : (calculate_release_point ⟨0, 0, 0⟩ ⟨0, 0, 0⟩ ⟨50, 45⟩).success = false := by
    norm_num [calculate_release_point, MIN_RELEASE_HEIGHT, failureResult]
  obtain ⟨a1, a2, a3, a4, a5⟩ := failure_leaks_no_solution_data _ _ _ hs
  exact ⟨hs, a1, a2, a3, a4, a5⟩

/-- The raw haversine term is symmetric in its two positions. -/
lemma haversineTerm_comm (p q : Position) :
    haversineTerm p q = haversineTerm q p := by
  simp only [haversineTerm]
  rw [show radians p.latitude - radians q.latitude =
      -(radians q.latitude - radians p.latitude) by ring,
    show radians p.longitude - radians q.longitude =
      -(radians q.longitude - radians p.longitude) by ring]
  rw [neg_div, neg_div, Real.sin_neg, Real.sin_neg]
  ring

/-- Claim C9: the haversine distance is symmetric, vanishes on identical
positions, and is computed from the haversine term clamped to [0, 1]
before the arc-sine square root is taken. -/
theorem geodesy_distance_properties :
    (∀ p q : Position,
      (calculate_distance_and_bearing p q).1 = (calculate_distance_and_bearing q p).1) ∧
    (∀ p : Position, (calculate_distance_and_bearing p p).1 = 0) ∧
    (∀ p q : Position, 0 ≤ clampedHaversineTerm p q ∧ clampedHaversineTerm p q ≤ 1) ∧
    (∀ p q : Position, (calculate_distance_and_bearing p q).1 =
      EARTH_RADIUS * (2 * Real.arcsin (Real.sqrt (clampedHaversineTerm p q)))) := by
  refine ⟨fun p q => ?_, fun p => distance_eq_zero_of_same_latlon p p rfl rfl,
    fun p q => ?_, fun p q => rfl⟩
  · simp only [calculate_distance_and_bearing, clampedHaversineTerm]
    rw [haversineTerm_comm]
  · simp only [clampedHaversineTerm]
    split_ifs with ha hb
    · norm_num
    · norm_num
    · push_neg at ha hb
      exact ⟨hb, ha⟩

/-- Claim C7: the composite flight-state pull gives the position pull
exactly half of the total budget, fails without attempting the speed
pull when the remaining budget after the position pull is nonpositive,
and otherwise gives the speed pull exactly the remaining budget. -/
theorem flight_data_timeout_split (T e tf : ℝ)
    (pp pp' : ℝ → Option Position) (gs gs' : ℝ → Option SpeedData)
    (p : Position) (hpos : pp (T / 2) = some p) :
    (pp' (T / 2) = pp (T / 2) →
      get_complete_flight_data T pp' gs e tf = get_complete_flight_data T pp gs e tf) ∧
    (T - e ≤ 0 → get_complete_flight_data T pp gs e tf = none) ∧
    (T - e ≤ 0 →
      get_complete_flight_data T pp gs e tf = get_complete_flight_data T pp gs' e tf) ∧
    (0 < T - e →
      get_complete_flight_data T pp gs e tf =
        Option.map (fun spd => FlightData.mk p spd tf) (gs (T - e))) := by
  refine ⟨fun hpe => ?_, fun hle => ?_, fun hle => ?_, fun hgt => ?_⟩
  · simp only [get_complete_flight_data]
    rw [hpe]
  · simp [get_complete_flight_data, hpos, hle]
  · simp [get_complete_flight_data, hpos, hle]
  · simp only [get_complete_flight_data, hpos]
    rw [if_neg (not_le.mpr hgt)]
    rcases gs (T - e) with _ | spd <;> rfl

/-- Witness for C7 at total budget 10 s with 4 s elapsed after the
position pull: the speed pull receives the remaining 6 s. -/
theorem flight_data_timeout_split_witness :
    (fun _ : ℝ => some (Position.mk 0 0 100)) ((10 : ℝ) / 2) = some (Position.mk 0 0 100) ∧
      get_complete_flight_data 10 (fun _ => some (Position.mk 0 0 100))
        (fun _ => some (SpeedData.mk 30 28)) 4 7 =
        Option.map (fun spd => FlightData.mk (Position.mk 0 0 100) spd 7)
          ((fun _ : ℝ => some (SpeedData.mk 30 28)) ((10 : ℝ) - 4)) := by
  refine ⟨rfl, ?_⟩
  exact (flight_data_timeout_split 10 4 7 (fun _ => some (Position.mk 0 0 100))
    (fun _ => some (Position.mk 0 0 100)) (fun _ => some (SpeedData.mk 30 28))
    (fun _ => none) (Position.mk 0 0 100) rfl).2.2.2 (by norm_num)

/-- Branch characterization: altitude below the minimum release height. -/
lemma release_point_altitude_branch (a t : Position) (s : SpeedData)
    (h1 : a.altitude < MIN_RELEASE_HEIGHT) :
    calculate_release_point a t s = failureResult ErrorCode.INVALID_COORDINATES := by
  simp [calculate_release_point, h1]

/-- Branch characterization: target beyond the maximum reasonable range. -/
lemma release_point_range_branch (a t : Position) (s : SpeedData)
    (h1 : ¬ a.altitude < MIN_RELEASE_HEIGHT)
    (h2 : (calculate_distance_and_bearing a t).1 > MAX_REASONABLE_DISTANCE) :
    calculate_release_point a t s = failureResult ErrorCode.TARGET_TOO_FAR := by
  simp [calculate_release_point, h1, h2]

/-- Branch characterization: the ballistic model found no solution. -/
lemma release_point_traj_branch (a t : Position) (s : SpeedData)
    (h1 : ¬ a.altitude < MIN_RELEASE_HEIGHT)
    (h2 : ¬ (calculate_distance_and_bearing a t).1 > MAX_REASONABLE_DISTANCE)
    (htraj : calculate_ballistic_trajectory s.groundspeed (a.altitude - t.altitude)
      (calculate_distance_and_bearing a t).1
      (calculate_wind_effect s.airspeed s.groundspeed
        (calculate_distance_and_bearing a t).2).1 = none) :
    calculate_release_point a t s = failureResult ErrorCode.CALCULATION_ERROR := by
  simp [calculate_release_point, h1, h2, htraj]

/-- Branch characterization: the release distance exceeds twice the
target distance. -/
lemma release_point_unstable_branch (a t : Position) (s : SpeedData) (ft : ℝ)
    (h1 : ¬ a.altitude < MIN_RELEASE_HEIGHT)
    (h2 : ¬ (calculate_distance_and_bearing a t).1 > MAX_REASONABLE_DISTANCE)
    (htraj : calculate_ballistic_trajectory s.groundspeed (a.altitude - t.altitude)
      (calculate_distance_and_bearing a t).1
      (calculate_wind_effect s.airspeed s.groundspeed
        (calculate_distance_and_bearing a t).2).1 = some ft)
    (h3 : s.groundspeed * ft > (calculate_distance_and_bearing a t).1 * 2) :
    calculate_release_point a t s = failureResult ErrorCode.NUMERICAL_INSTABILITY := by
  simp [calculate_release_point, h1, h2, htraj, h3]

/-- Branch characterization: the release countdown came out negative. -/
lemma release_point_window_branch (a t : Position) (s : SpeedData) (ft : ℝ)
    (h1 : ¬ a.altitude < MIN_RELEASE_HEIGHT)
    (h2 : ¬ (calculate_distance_and_bearing a t).1 > MAX_REASONABLE_DISTANCE)
    (htraj : calculate_ballistic_trajectory s.groundspeed (a.altitude - t.altitude)
      (calculate_distance_and_bearing a t).1
      (calculate_wind_effect s.airspeed s.groundspeed
        (calculate_distance_and_bearing a t).2).1 = some ft)
    (h3 : ¬ s.groundspeed * ft > (calculate_distance_and_bearing a t).1 * 2)
    (h4 : ((calculate_distance_and_bearing a t).1 - s.groundspeed * ft) /
      s.groundspeed < 0) :
    calculate_release_point a t s = failureResult ErrorCode.CALCULATION_ERROR := by
  simp [calculate_release_point, h1, h2, htraj, h3, h4]

/-- Branch characterization: all gates pass and the solver succeeds. -/
lemma release_point_success_branch (a t : Position) (s : SpeedData) (ft : ℝ)
    (h1 : ¬ a.altitude < MIN_RELEASE_HEIGHT)
    (h2 : ¬ (calculate_distance_and_bearing a t).1 > MAX_REASONABLE_DISTANCE)
    (htraj : calculate_ballistic_trajectory s.groundspeed (a.altitude - t.altitude)
      (calculate_distance_and_bearing a t).1
      (calculate_wind_effect s.airspeed s.groundspeed
        (calculate_distance_and_bearing a t).2).1 = some ft)
    (h3 : ¬ s.groundspeed * ft > (calculate_distance_and_bearing a t).1 * 2)
    (h4 : ¬ ((calculate_distance_and_bearing a t).1 - s.groundspeed * ft) /
      s.groundspeed < 0) :
    (calculate_release_point a t s).error_code = ErrorCode.SUCCESS := by
  simp [calculate_release_point, h1, h2, htraj, h3, h4]

/-- The ballistic model has no solution at zero horizontal distance. -/
lemma traj_zero_distance_none (v h w : ℝ) :
    calculate_ballistic_trajectory v h 0 w = none := by
  by_cases hh : h ≤ 0
  · simp [calculate_ballistic_trajectory, hh]
  · simp [calculate_ballistic_trajectory, hh]

/-- A solver run against a target at identical latitude and longitude
fails through the ballistic branch with `CALCULATION_ERROR`. -/
lemma run_same_spot_result :
    calculate_release_point ⟨0, 0, 490.5⟩ ⟨0, 0, 0⟩ ⟨50, 50⟩ =
      failureResult ErrorCode.CALCULATION_ERROR := by
  have hd : (calculate_distance_and_bearing
      (Position.mk 0 0 490.5) (Position.mk 0 0 0)).1 = 0 :=
    distance_eq_zero_of_same_latlon _ _ rfl rfl
  apply release_point_traj_branch
  · norm_num [MIN_RELEASE_HEIGHT]
  · rw [hd]
    norm_num [MAX_REASONABLE_DISTANCE]
  · rw [hd]
    exact traj_zero_distance_none _ _ _

/-- The haversine term of the aircraft at (0°, 0°) and the target at
(0.1°, 0°) is the squared sine of π/3600. -/
lemma haversine_tenth_degree :
    haversineTerm ⟨0, 0, 490.5⟩ ⟨0.1, 0, 0⟩ = Real.sin (π / 3600) ^ 2 := by
  simp only [haversineTerm, radians]
  norm_num
  rw [show (1 / 10 * π / 180 / 2 : ℝ) = π / 3600 by ring]

/-- The clamp leaves the haversine term of the 0.1°-apart pair alone. -/
lemma clamped_tenth_degree :
    clampedHaversineTerm ⟨0, 0, 490.5⟩ ⟨0.1, 0, 0⟩ = Real.sin (π / 3600) ^ 2 := by
  rw [clampedHaversineTerm, haversine_tenth_degree]
  rw [if_neg (not_lt.mpr (Real.sin_sq_le_one (π / 3600))),
    if_neg (not_lt.mpr (sq_nonneg (Real.sin (π / 3600))))]

/-- The haversine distance of the 0.1°-apart pair is exactly
6371000·π/1800 meters (about 11119.5 m). -/
lemma dist_tenth_degree :
    (calculate_distance_and_bearing ⟨0, 0, 490.5⟩ ⟨0.1, 0, 0⟩).1 =
      6371000 * (π / 1800) := by
  have hx0 : (0 : ℝ) < π / 3600 := by positivity
  have hxpi : π / 3600 < π := by nlinarith [Real.pi_pos]
  have h1 : Real.sqrt (Real.sin (π / 3600) ^ 2) = Real.sin (π / 3600) := by
    rw [Real.sqrt_sq_eq_abs, abs_of_pos (Real.sin_pos_of_pos_of_lt_pi hx0 hxpi)]
  have h2 : Real.arcsin (Real.sin (π / 3600)) = π / 3600 := by
    apply Real.arcsin_sin
    · nlinarith [Real.pi_pos]
    · nlinarith [Real.pi_pos]
  simp only [calculate_distance_and_bearing, clamped_tenth_degree, h1, h2,
    EARTH_RADIUS]
  ring

/-- Evaluation of the ballistic model in the overflown-target run:
the cruise time 6371π/1800 s (about 11.12 s) wins the max and the
returned time is 1.1 times it. -/
lemma traj_tenth_degree :
    calculate_ballistic_trajectory 1000 (490.5 - 0) (6371000 * (π / 1800)) 0 =
      some (6371000 * (π / 1800) / 1000 * 1.1) := by
  have habs : |(1000 : ℝ)| = 1000 := by norm_num
  have hvt : vertical_time (490.5 - 0) = 10 := by
    rw [vertical_time, show (2 * (490.5 - 0) / GRAVITY : ℝ) = 10 ^ 2 by
      norm_num [GRAVITY]]
    exact Real.sqrt_sq (by norm_num)
  have hpre : preDragFlightTime (effective_horizontal_velocity 1000 0) (490.5 - 0)
      (6371000 * (π / 1800)) = 6371000 * (π / 1800) / 1000 := by
    simp only [preDragFlightTime, effective_horizontal_velocity, add_zero, hvt, habs]
    rw [if_neg (by push_neg; nlinarith [Real.pi_lt_315])]
    apply max_eq_left
    nlinarith [Real.pi_gt_three]
  simp only [calculate_ballistic_trajectory, effective_horizontal_velocity, add_zero]
  rw [if_neg (by norm_num : ¬ (490.5 - 0 : ℝ) ≤ 0),
    if_neg (by push_neg; positivity : ¬ (6371000 * (π / 1800) : ℝ) ≤ 0),
    if_neg (by rw [habs]; norm_num : ¬ |(1000 : ℝ)| < 1e-10)]
  have hpre2 : preDragFlightTime 1000 (490.5 - 0) (6371000 * (π / 1800)) =
      6371000 * (π / 1800) / 1000 := by
    simpa [effective_horizontal_velocity] using hpre
  rw [hpre2]
  rw [if_neg ?gate]
  case gate =>
    push_neg
    constructor
    · positivity
    · nlinarith [Real.pi_le_four]

/-- A solver run whose release point is already overflown fails through
the negative-countdown branch, again with `CALCULATION_ERROR`. -/
lemma run_overflown_result :
    calculate_release_point ⟨0, 0, 490.5⟩ ⟨0.1, 0, 0⟩ ⟨1000, 1000⟩ =
      failureResult ErrorCode.CALCULATION_ERROR := by
  have hDpos : (0 : ℝ) < 6371000 * (π / 1800) := by positivity
  have hwind : (calculate_wind_effect (1000 : ℝ) 1000
      ((calculate_distance_and_bearing ⟨0, 0, 490.5⟩ ⟨0.1, 0, 0⟩).2)).1 = 0 := by
    simp [calculate_wind_effect]
  refine release_point_window_branch _ _ _
    (6371000 * (π / 1800) / 1000 * 1.1) ?_ ?_ ?_ ?_ ?_
  · norm_num [MIN_RELEASE_HEIGHT]
  · rw [dist_tenth_degree]
    push_neg
    norm_num [MAX_REASONABLE_DISTANCE]
    nlinarith [Real.pi_le_four]
  · show calculate_ballistic_trajectory 1000 (490.5 - 0)
        ((calculate_distance_and_bearing ⟨0, 0, 490.5⟩ ⟨0.1, 0, 0⟩).1) _ = _
    rw [dist_tenth_degree, hwind]
    exact traj_tenth_degree
  · show ¬ (1000 : ℝ) * (6371000 * (π / 1800) / 1000 * 1.1) >
      (calculate_distance_and_bearing ⟨0, 0, 490.5⟩ ⟨0.1, 0, 0⟩).1 * 2
    rw [dist_tenth_degree]
    push_neg
    nlinarith [hDpos]
  · show ((calculate_distance_and_bearing ⟨0, 0, 490.5⟩ ⟨0.1, 0, 0⟩).1 -
      (1000 : ℝ) * (6371000 * (π / 1800) / 1000 * 1.1)) / 1000 < 0
    rw [dist_tenth_degree]
    rw [show ((6371000 * (π / 1800)) - (1000 : ℝ) *
      (6371000 * (π / 1800) / 1000 * 1.1)) / 1000 =
      -(0.1 * (6371000 * (π / 1800))) / 1000 by ring]
    apply div_neg_of_neg_of_pos
    · nlinarith [hDpos]
    · norm_num

/-- Counterexample to C6 as stated: the below-minimum-altitude outcome
carries `INVALID_COORDINATES`, the very code naming the construction-time
coordinate error, and two different domain failures — the ballistic model
returning no solution (identical aircraft and target latitude/longitude)
and a missed release window (target 0.1° away overflown at 1000 m/s) —
both carry the same `CALCULATION_ERROR` code, so the five outcomes are
not five mutually distinct error kinds. -/
theorem error_kinds_collapse_cex :
    (calculate_release_point ⟨0, 0, 10⟩ ⟨0, 0, 0⟩ ⟨50, 50⟩).error_code =
        ErrorCode.INVALID_COORDINATES ∧
      calculate_ballistic_trajectory 50 (490.5 - 0)
        ((calculate_distance_and_bearing ⟨0, 0, 490.5⟩ ⟨0, 0, 0⟩).1) 0 = none ∧
      (calculate_release_point ⟨0, 0, 490.5⟩ ⟨0, 0, 0⟩ ⟨50, 50⟩).error_code =
        ErrorCode.CALCULATION_ERROR ∧
      (∃ ft, calculate_ballistic_trajectory 1000 (490.5 - 0)
        ((calculate_distance_and_bearing ⟨0, 0, 490.5⟩ ⟨0.1, 0, 0⟩).1) 0 = some ft) ∧
      (calculate_release_point ⟨0, 0, 490.5⟩ ⟨0.1, 0, 0⟩ ⟨1000, 1000⟩).error_code =
        ErrorCode.CALCULATION_ERROR := by
  refine ⟨?_, ?_, ?_, ?_, ?_⟩
  · rw [release_point_altitude_branch _ _ _ (by norm_num [MIN_RELEASE_HEIGHT])]
    rfl
  · rw [distance_eq_zero_of_same_latlon ⟨0, 0, 490.5⟩ ⟨0, 0, 0⟩ rfl rfl]
    exact traj_zero_distance_none _ _ _
  · rw [run_same_spot_result]
    rfl
  · refine ⟨6371000 * (π / 1800) / 1000 * 1.1, ?_⟩
    rw [dist_tenth_degree]
    exact traj_tenth_degree
  · rw [run_overflown_result]
    rfl

/-- Claim C6 (amended): the solver reports its five domain-bound
failures through only four of the six error codes, with two collisions:
the below-minimum-altitude outcome reuses `INVALID_COORDINATES` (the
construction-time coordinate error code), and both the
trajectory-unresolvable and the release-window-missed outcomes map to
the same `CALCULATION_ERROR` code; `TARGET_TOO_FAR` and
`NUMERICAL_INSTABILITY` are distinct, and `INVALID_SPEED` is never
produced by the solver. -/
theorem solver_error_code_mapping (a t : Position) (s : SpeedData) :
    (a.altitude < MIN_RELEASE_HEIGHT →
      calculate_release_point a t s = failureResult ErrorCode.INVALID_COORDINATES) ∧
    (¬ a.altitude < MIN_RELEASE_HEIGHT →
      (calculate_distance_and_bearing a t).1 > MAX_REASONABLE_DISTANCE →
      calculate_release_point a t s = failureResult ErrorCode.TARGET_TOO_FAR) ∧
    (¬ a.altitude < MIN_RELEASE_HEIGHT →
      ¬ (calculate_distance_and_bearing a t).1 > MAX_REASONABLE_DISTANCE →
      calculate_ballistic_trajectory s.groundspeed (a.altitude - t.altitude)
        (calculate_distance_and_bearing a t).1
        (calculate_wind_effect s.airspeed s.groundspeed
          (calculate_distance_and_bearing a t).2).1 = none →
      calculate_release_point a t s = failureResult ErrorCode.CALCULATION_ERROR) ∧
    (∀ ft, ¬ a.altitude < MIN_RELEASE_HEIGHT →
      ¬ (calculate_distance_and_bearing a t).1 > MAX_REASONABLE_DISTANCE →
      calculate_ballistic_trajectory s.groundspeed (a.altitude - t.altitude)
        (calculate_distance_and_bearing a t).1
        (calculate_wind_effect s.airspeed s.groundspeed
          (calculate_distance_and_bearing a t).2).1 = some ft →
      s.groundspeed * ft > (calculate_distance_and_bearing a t).1 * 2 →
      calculate_release_point a t s = failureResult ErrorCode.NUMERICAL_INSTABILITY) ∧
    (∀ ft, ¬ a.altitude < MIN_RELEASE_HEIGHT →
      ¬ (calculate_distance_and_bearing a t).1 > MAX_REASONABLE_DISTANCE →
      calculate_ballistic_trajectory s.groundspeed (a.altitude - t.altitude)
        (calculate_distance_and_bearing a t).1
        (calculate_wind_effect s.airspeed s.groundspeed
          (calculate_distance_and_bearing a t).2).1 = some ft →
      ¬ s.groundspeed * ft > (calculate_distance_and_bearing a t).1 * 2 →
      ((calculate_distance_and_bearing a t).1 - s.groundspeed * ft) /
        s.groundspeed < 0 →
      calculate_release_point a t s = failureResult ErrorCode.CALCULATION_ERROR) ∧
    (calculate_release_point a t s).error_code ≠ ErrorCode.INVALID_SPEED := by
  refine ⟨release_point_altitude_branch a t s,
    release_point_range_branch a t s,
    release_point_traj_branch a t s,
    fun ft => release_point_unstable_branch a t s ft,
    fun ft => release_point_window_branch a t s ft, ?_⟩
  intro hcode
  by_cases h1 : a.altitude < MIN_RELEASE_HEIGHT
  · rw [release_point_altitude_branch a t s h1] at hcode
    simp [failureResult] at hcode
  by_cases h2 : (calculate_distance_and_bearing a t).1 > MAX_REASONABLE_DISTANCE
  · rw [release_point_range_branch a t s h1 h2] at hcode
    simp [failureResult] at hcode
  rcases htraj : calculate_ballistic_trajectory s.groundspeed (a.altitude - t.altitude)
      (calculate_distance_and_bearing a t).1
      (calculate_wind_effect s.airspeed s.groundspeed
        (calculate_distance_and_bearing a t).2).1 with _ | ft
  · rw [release_point_traj_branch a t s h1 h2 htraj] at hcode
    simp [failureResult] at hcode
  by_cases h3 : s.groundspeed * ft > (calculate_distance_and_bearing a t).1 * 2
  · rw [release_point_unstable_branch a t s ft h1 h2 htraj h3] at hcode
    simp [failureResult] at hcode
  by_cases h4 : ((calculate_distance_and_bearing a t).1 - s.groundspeed * ft) /
      s.groundspeed < 0
  · rw [release_point_window_branch a t s ft h1 h2 htraj h3 h4] at hcode
    simp [failureResult] at hcode
  · rw [release_point_success_branch a t s ft h1 h2 htraj h3 h4] at hcode
    exact ErrorCode.noConfusion hcode

end

end BombRelease
